import Mathlib

/-!
Shallow embedding of the LatencyFleX frame pacer of src/latencyflex.h: the
classes lfx::internal::EwmaEstimator and lfx::LatencyFleX, together with
the failsafe-clamp logic of lfx_WaitAndBeginFrame from
src/layer/latencyflex_layer.cpp.

Modelling conventions: C++ doubles are modelled as rationals; uint64
counters and timestamps as natural numbers, with UINT64_MAX kept as an
explicit sentinel value; int64 quantities as integers. Overflow is not
modelled: the claims are about the ideal arithmetic of the algorithm.
-/

namespace lfx

/-- UINT64_MAX, used by the source as the empty-slot and unset sentinel. -/
def U64MAX : ℕ := 2 ^ 64 - 1

/-- std::round for doubles, modelled on rationals: round half away from zero. -/
def cppRound (x : ℚ) : ℤ := if 0 ≤ x then (x + 1 / 2).floor else (x - 1 / 2).ceil

/-- A C-style (int64_t) cast of a double, modelled on rationals: truncation
toward zero. -/
def cppTrunc (x : ℚ) : ℤ := if 0 ≤ x then x.floor else -((-x).floor)

/-- std::clamp(v, lo, hi), for lo ≤ hi. -/
def cppClamp (v lo hi : ℤ) : ℤ := max lo (min hi v)

/-- An exponentially weighted moving average estimator (EwmaEstimator). -/
structure EwmaEstimator where
  alpha : ℚ
  current : ℚ
  current_weight : ℚ
deriving DecidableEq

/-- The EwmaEstimator constructor: current starts at 0; current_weight starts
at 1 for a full-weight estimator and at 0 otherwise. -/
def EwmaEstimator.mk0 (alpha : ℚ) (full_weight : Bool) : EwmaEstimator :=
  ⟨alpha, 0, if full_weight then 1 else 0⟩

/-- EwmaEstimator::update. -/
def EwmaEstimator.update (e : EwmaEstimator) (value : ℚ) : EwmaEstimator :=
  { e with
    current := (1 - e.alpha) * e.current + e.alpha * value
    current_weight := (1 - e.alpha) * e.current_weight + e.alpha }

/-- EwmaEstimator::get. -/
def EwmaEstimator.get (e : EwmaEstimator) : ℚ :=
  if e.current_weight = 0 then 0 else e.current / e.current_weight

def kMaxInflightFrames : ℕ := 16

/-- The slot index frame_id % kMaxInflightFrames used for all per-frame arrays. -/
def slot (i : ℕ) : Fin 16 := ⟨i % 16, Nat.mod_lt i (by norm_num)⟩

/-- The state of the lfx::LatencyFleX pacer of src/latencyflex.h (field names
follow the source, with the trailing underscore dropped). -/
structure LatencyFleX where
  frame_begin_ts : Fin 16 → ℕ
  frame_begin_ids : Fin 16 → ℕ
  frame_end_projected_ts : Fin 16 → ℤ
  frame_end_projection_base : ℕ
  prev_frame_begin_id : ℕ
  cycle : List ℚ
  prev_correction : ℤ
  prev_frame_end_id : ℕ
  prev_frame_end_ts : ℕ
  latency : EwmaEstimator
  inv_throughtput : EwmaEstimator
  proj_correction : EwmaEstimator
  target_frame_time : ℕ

/-- The freshly constructed pacer (constructor plus field initializers).
cycle_ is the vector with the gains 1.08 and 0.96. The source leaves
prev_frame_end_ts_ uninitialized; it is first written by EndFrame and only
read once prev_frame_end_id_ is set, so the model initializes it to 0. -/
def LatencyFleX.init : LatencyFleX where
  frame_begin_ts := fun _ => 0
  frame_begin_ids := fun _ => U64MAX
  frame_end_projected_ts := fun _ => 0
  frame_end_projection_base := U64MAX
  prev_frame_begin_id := U64MAX
  cycle := [27 / 25, 24 / 25]
  prev_correction := 0
  prev_frame_end_id := U64MAX
  prev_frame_end_ts := 0
  latency := EwmaEstimator.mk0 (3 / 10) false
  inv_throughtput := EwmaEstimator.mk0 (3 / 10) false
  proj_correction := EwmaEstimator.mk0 (1 / 2) true
  target_frame_time := 0

/-- Shared tail of GetWaitTarget: computes the target wakeup time and stores
the new projection for frame_id. The state passed in already reflects the
projection-base initialization or the correction update of the first half of
the function; gain is cycle_[phase]. The delay compensation is the truncated
(int64_t)fmax(proj_correction_.get(), 0.0); the projection uses the
1 / fmin(gain, 1) multiplier instead of 1 / gain. -/
def gwtFinish (s : LatencyFleX) (frame_id : ℕ) (gain : ℚ) : ℤ × LatencyFleX :=
  let invtpt := s.inv_throughtput.get
  let comp : ℤ := cppTrunc (max s.proj_correction.get 0)
  let target : ℤ :=
    (s.frame_end_projection_base : ℤ) +
      s.frame_end_projected_ts (slot s.prev_frame_begin_id) + comp +
      cppRound ((((frame_id : ℚ) - (s.prev_frame_begin_id : ℚ)) + 1 / gain - 1) * invtpt -
        s.latency.get)
  let new_projection : ℤ :=
    s.frame_end_projected_ts (slot s.prev_frame_begin_id) + comp +
      cppRound ((((frame_id : ℚ) - (s.prev_frame_begin_id : ℚ)) + 1 / min gain 1 - 1) * invtpt)
  (target,
    { s with frame_end_projected_ts :=
        Function.update s.frame_end_projected_ts (slot frame_id) new_projection })

/-- The non-cold-start branch of LatencyFleX::GetWaitTarget: on the first
warm call the projection base is initialized from prev_frame_end_ts_;
afterwards proj_correction_ is updated with the unclamped difference
correction - prev_correction_ and prev_correction_ is set to correction. -/
def getWaitTargetActive (s : LatencyFleX) (frame_id : ℕ) : ℤ × LatencyFleX :=
  let phase := frame_id % s.cycle.length
  let gain := s.cycle.getD phase 0
  if s.frame_end_projection_base = U64MAX then
    gwtFinish { s with frame_end_projection_base := s.prev_frame_end_ts } frame_id gain
  else
    let correction : ℤ :=
      (s.prev_frame_end_ts : ℤ) -
        ((s.frame_end_projection_base : ℤ) +
          s.frame_end_projected_ts (slot s.prev_frame_end_id))
    gwtFinish
      { s with
        proj_correction := s.proj_correction.update ((correction - s.prev_correction : ℤ) : ℚ)
        prev_correction := correction }
      frame_id gain

/-- LatencyFleX::GetWaitTarget. Returns the target (0 on cold start) and the
state after the call. -/
def GetWaitTarget (s : LatencyFleX) (frame_id : ℕ) : ℤ × LatencyFleX :=
  if s.prev_frame_end_id ≠ U64MAX then getWaitTargetActive s frame_id else (0, s)

/-- LatencyFleX::BeginFrame: records the begin id, the begin timestamp and
prev_frame_begin_id_, nothing else. -/
def BeginFrame (s : LatencyFleX) (frame_id : ℕ) (timestamp : ℕ) : LatencyFleX :=
  { s with
    frame_begin_ids := Function.update s.frame_begin_ids (slot frame_id) frame_id
    frame_begin_ts := Function.update s.frame_begin_ts (slot frame_id) timestamp
    prev_frame_begin_id := frame_id }

/-- LatencyFleX::EndFrame. Returns the int64 values written through the
latency and frame_time pointers (both are always written when non-null; the
initial value -1 reads back as UINT64_MAX through the uint64 pointer) and
the state after the call. -/
def EndFrame (s : LatencyFleX) (frame_id : ℕ) (timestamp : ℕ) :
    ℤ × ℤ × LatencyFleX :=
  let phase := frame_id % s.cycle.length
  if s.frame_begin_ids (slot frame_id) = frame_id then
    let frame_start := s.frame_begin_ts (slot frame_id)
    let s1 := { s with
      frame_begin_ids := Function.update s.frame_begin_ids (slot frame_id) U64MAX }
    let latency_val : ℤ :=
      cppClamp ((timestamp : ℤ) - (frame_start : ℤ)) 1000000 50000000
    let s2 :=
      if phase = 1 ∧ latency_val > 0 then
        { s1 with latency := s1.latency.update (latency_val : ℚ) }
      else s1
    if s2.prev_frame_end_id ≠ U64MAX ∧ frame_id > s2.prev_frame_end_id then
      let frames_elapsed : ℤ := (frame_id : ℤ) - (s2.prev_frame_end_id : ℤ)
      let frame_time_val :=
        cppClamp (Int.tdiv ((timestamp : ℤ) - (s2.prev_frame_end_ts : ℤ)) frames_elapsed)
          1000000 50000000
      let s3 :=
        if phase = 0 ∧ frame_time_val > 0 then
          { s2 with inv_throughtput := s2.inv_throughtput.update (frame_time_val : ℚ) }
        else s2
      (latency_val, frame_time_val,
        { s3 with prev_frame_end_id := frame_id, prev_frame_end_ts := timestamp })
    else
      (latency_val, -1,
        { s2 with prev_frame_end_id := frame_id, prev_frame_end_ts := timestamp })
  else
    (-1, -1, s)

/-- LatencyFleX::Reset: a fresh instance, keeping target_frame_time. -/
def Reset (s : LatencyFleX) : LatencyFleX :=
  { LatencyFleX.init with target_frame_time := s.target_frame_time }

/-- The pacer operations, for reasoning about call sequences. -/
inductive Op where
  | getWaitTarget (frame_id : ℕ)
  | beginFrame (frame_id : ℕ) (timestamp : ℕ)
  | endFrame (frame_id : ℕ) (timestamp : ℕ)
  | reset
  | setTargetFrameTime (t : ℕ)

/-- Whether an operation is an EndFrame call. -/
def Op.isEnd : Op → Bool
  | .endFrame _ _ => true
  | _ => false

/-- The state transition of one pacer operation. -/
def step (s : LatencyFleX) : Op → LatencyFleX
  | .getWaitTarget f => (GetWaitTarget s f).2
  | .beginFrame f ts => BeginFrame s f ts
  | .endFrame f ts => (EndFrame s f ts).2.2
  | .reset => Reset s
  | .setTargetFrameTime t => { s with target_frame_time := t }

/-- Run a sequence of pacer operations. -/
def runOps (s : LatencyFleX) (ops : List Op) : LatencyFleX := ops.foldl step s

/-- The wake-up target as claim C1 and spec section 4.B.1 state it, written
from the words of the spec: projection base taken from prev_end_ts when
still unset, tunables up_factor = 1.10 and down_factor = 0.985 inlined, the
up-phase multiplier replaced by 1 on the down phase, and comp rounded from
the correction estimator. The spec's steps 2 and 3 (the clamped correction
update) involve per-slot compensation state this revision does not have, so
the estimator those steps produce is a parameter; on a first warm call
(projection base still unset) the spec skips those steps and the parameter
is the pacer's own proj_correction. -/
def waitTargetSpec (s : LatencyFleX) (frame_id : ℕ) (pcs : EwmaEstimator) : ℤ :=
  let phase := frame_id % 2
  let projection_base : ℕ :=
    if s.frame_end_projection_base = U64MAX then s.prev_frame_end_ts
    else s.frame_end_projection_base
  let comp := cppRound pcs.get
  (projection_base : ℤ) + s.frame_end_projected_ts (slot s.prev_frame_begin_id) + comp +
    cppRound ((((frame_id : ℚ) - (s.prev_frame_begin_id : ℚ)) +
          1 / (if phase = 0 then (11 / 10 : ℚ) else 1) - 1) * s.inv_throughtput.get /
            (197 / 200 : ℚ) -
        s.latency.get)

/-- The wake-up target formula the source actually computes (claim C1 as
amended): gain comes from cycle_ = {1.08, 0.96} indexed by frame_id mod 2,
the inverse-throughput term is not divided by any down factor, and the
delay compensation is the truncated (int64_t)fmax(proj_correction.get(), 0)
of the estimator after this call's correction update (no update on the
first warm call, the unclamped difference update afterwards). -/
def waitTargetAmended (s : LatencyFleX) (frame_id : ℕ) : ℤ :=
  let phase := frame_id % s.cycle.length
  let gain := s.cycle.getD phase 0
  let projection_base : ℕ :=
    if s.frame_end_projection_base = U64MAX then s.prev_frame_end_ts
    else s.frame_end_projection_base
  let pc :=
    if s.frame_end_projection_base = U64MAX then s.proj_correction
    else
      s.proj_correction.update
        ((((s.prev_frame_end_ts : ℤ) -
              ((s.frame_end_projection_base : ℤ) +
                s.frame_end_projected_ts (slot s.prev_frame_end_id))) -
            s.prev_correction : ℤ) : ℚ)
  (projection_base : ℤ) + s.frame_end_projected_ts (slot s.prev_frame_begin_id) +
    cppTrunc (max pc.get 0) +
    cppRound ((((frame_id : ℚ) - (s.prev_frame_begin_id : ℚ)) + 1 / gain - 1) *
        s.inv_throughtput.get -
      s.latency.get)

/-- The state of the failsafe logic in lfx_WaitAndBeginFrame: the static
counter failsafe_triggered and the ticker_needs_reset flag. -/
structure FailsafeState where
  failsafe_triggered : ℕ
  ticker_needs_reset : Bool
deriving DecidableEq

/-- The sleep-target computation of lfx_WaitAndBeginFrame on the
non-placebo path with target > now: clamp the wakeup to now + 50 ms,
counting consecutive clamps and scheduling a recalibration after more than
5 of them, and resetting the counter on a non-clamped frame. Returns the
wakeup deadline and the updated failsafe state. -/
def failsafeClamp (st : FailsafeState) (now target : ℕ) : ℕ × FailsafeState :=
  let failsafe := now + 50000000
  if target > failsafe then
    let ft := st.failsafe_triggered + 1
    (failsafe, ⟨ft, if ft > 5 then true else st.ticker_needs_reset⟩)
  else
    (target, ⟨0, st.ticker_needs_reset⟩)


lemma ewma_const_invariant (a v : ℚ) (h0 : 0 ≤ a) (h1 : a ≤ 1) (n : ℕ) :
    ((fun e => EwmaEstimator.update e v)^[n] (EwmaEstimator.mk0 a false)).alpha = a ∧
    ((fun e => EwmaEstimator.update e v)^[n] (EwmaEstimator.mk0 a false)).current =
      v * ((fun e => EwmaEstimator.update e v)^[n] (EwmaEstimator.mk0 a false)).current_weight ∧
    0 ≤ ((fun e => EwmaEstimator.update e v)^[n] (EwmaEstimator.mk0 a false)).current_weight := by
  induction n with
  | zero => exact ⟨rfl, by simp [EwmaEstimator.mk0], by simp [EwmaEstimator.mk0]⟩
  | succ m ih =>
      obtain ⟨ha, hc, hw⟩ := ih
      rw [Function.iterate_succ_apply']
      set E := (fun e => EwmaEstimator.update e v)^[m] (EwmaEstimator.mk0 a false) with hE
      refine ⟨ha, ?_, ?_⟩
      · show (1 - E.alpha) * E.current + E.alpha * v =
          v * ((1 - E.alpha) * E.current_weight + E.alpha)
        rw [ha, hc]
        ring
      · show 0 ≤ (1 - E.alpha) * E.current_weight + E.alpha
        rw [ha]
        nlinarith

lemma ewma_const_weight_pos (a v : ℚ) (n : ℕ) (h0 : 0 < a) (h1 : a ≤ 1) (hn : 1 ≤ n) :
    0 < ((fun e => EwmaEstimator.update e v)^[n] (EwmaEstimator.mk0 a false)).current_weight := by
  obtain ⟨m, rfl⟩ : ∃ m, n = m + 1 := ⟨n - 1, by omega⟩
  obtain ⟨ha, hc, hw⟩ := ewma_const_invariant a v (le_of_lt h0) h1 m
  rw [Function.iterate_succ_apply']
  set E := (fun e => EwmaEstimator.update e v)^[m] (EwmaEstimator.mk0 a false) with hE
  show 0 < (1 - E.alpha) * E.current_weight + E.alpha
  rw [ha]
  nlinarith

/-- C6: the weight-corrected EWMA estimator with initial weight 0 reports 0
before any update, and after n greater-equal 1 updates with a constant
nonnegative value v it reports exactly v, already on the first sample. -/
theorem C6_ewma_constant (a v : ℚ) (n : ℕ) (h0 : 0 < a) (h1 : a < 1) (hv : 0 ≤ v)
    (hn : 1 ≤ n) :
    (EwmaEstimator.mk0 a false).get = 0 ∧
      ((fun e => EwmaEstimator.update e v)^[n] (EwmaEstimator.mk0 a false)).get = v := by
  refine ⟨by simp [EwmaEstimator.mk0, EwmaEstimator.get], ?_⟩
  have hw := ewma_const_weight_pos a v n h0 (le_of_lt h1) hn
  have hc := (ewma_const_invariant a v (le_of_lt h0) (le_of_lt h1) n).2.1
  rw [EwmaEstimator.get, if_neg (ne_of_gt hw), hc, mul_div_assoc,
    div_self (ne_of_gt hw), mul_one]

theorem C6_ewma_constant_witness : (0 : ℚ) < 1/2 ∧ (1/2 : ℚ) < 1 ∧ (0 : ℚ) ≤ 3 ∧ 1 ≤ 2 ∧
    ((EwmaEstimator.mk0 (1/2) false).get = 0 ∧
      ((fun e => EwmaEstimator.update e 3)^[2] (EwmaEstimator.mk0 (1/2) false)).get = 3) :=
  ⟨by norm_num, by norm_num, by norm_num, by norm_num,
    C6_ewma_constant (1/2) 3 2 (by norm_num) (by norm_num) (by norm_num) (by norm_num)⟩

lemma endFrame_fields (s : LatencyFleX) (f ts : ℕ) :
    (EndFrame s f ts).2.2.prev_frame_begin_id = s.prev_frame_begin_id ∧
    (EndFrame s f ts).2.2.frame_begin_ts = s.frame_begin_ts ∧
    (EndFrame s f ts).2.2.frame_end_projection_base = s.frame_end_projection_base := by
  rw [EndFrame]
  dsimp only
  refine ⟨?_, ?_, ?_⟩ <;> (repeat' split) <;> rfl

lemma getWaitTarget_prev_begin (s : LatencyFleX) (f : ℕ) :
    (GetWaitTarget s f).2.prev_frame_begin_id = s.prev_frame_begin_id := by
  rw [GetWaitTarget, getWaitTargetActive]
  dsimp only
  (repeat' split) <;> rfl

lemma endFrame_prev_end (s : LatencyFleX) (f ts : ℕ) :
    (EndFrame s f ts).2.2.prev_frame_end_id = s.prev_frame_end_id ∨
      (EndFrame s f ts).2.2.prev_frame_end_id = f := by
  rw [EndFrame]
  dsimp only
  (repeat' split) <;> simp

lemma cold_preserved (s : LatencyFleX) (op : Op) (hop : op.isEnd = false)
    (h : s.prev_frame_end_id = U64MAX) : (step s op).prev_frame_end_id = U64MAX := by
  cases op with
  | getWaitTarget f =>
      show (GetWaitTarget s f).2.prev_frame_end_id = U64MAX
      rw [GetWaitTarget, if_neg (fun hne => hne h)]
      exact h
  | beginFrame f ts => exact h
  | endFrame f ts => simp [Op.isEnd] at hop
  | reset => rfl
  | setTargetFrameTime t => exact h

lemma cold_runOps : ∀ (ops : List Op), (∀ op ∈ ops, op.isEnd = false) →
    ∀ s, s.prev_frame_end_id = U64MAX → (runOps s ops).prev_frame_end_id = U64MAX := by
  intro ops
  induction ops with
  | nil => exact fun _ s hs => hs
  | cons op rest ih =>
      intro h s hs
      exact ih (fun o ho => h o (List.mem_cons_of_mem _ ho)) _
        (cold_preserved s op (h op (List.mem_cons_self _ _)) hs)

lemma slot_ne_of_mod_ne {g f : ℕ} (h : g % 16 ≠ f % 16) : slot f ≠ slot g := by
  intro he
  apply h
  have hv := congrArg Fin.val he
  simpa [slot] using hv.symm

lemma endFrame_ids_other (s : LatencyFleX) (g ts f : ℕ) (hmod : g % 16 ≠ f % 16) :
    (EndFrame s g ts).2.2.frame_begin_ids (slot f) = s.frame_begin_ids (slot f) := by
  rw [EndFrame]
  dsimp only
  (repeat' split) <;> simp [Function.update_noteq (slot_ne_of_mod_ne hmod)]

lemma beginFrame_ids_self (s : LatencyFleX) (f ts1 : ℕ) :
    (BeginFrame s f ts1).frame_begin_ids (slot f) = f := by
  rw [BeginFrame]
  exact Function.update_same _ _ _


lemma endFrame_fail (s : LatencyFleX) (f ts : ℕ) (hne : s.frame_begin_ids (slot f) ≠ f) :
    EndFrame s f ts = (-1, -1, s) := by
  rw [EndFrame]
  dsimp only
  rw [if_neg hne]

lemma endFrame_latency_val (s : LatencyFleX) (f ts : ℕ)
    (hs : s.frame_begin_ids (slot f) = f) :
    (EndFrame s f ts).1 =
      cppClamp ((ts : ℤ) - (s.frame_begin_ts (slot f) : ℤ)) 1000000 50000000 := by
  rw [EndFrame]
  dsimp only
  rw [if_pos hs]
  (repeat' split) <;> rfl

lemma endFrame_ft_val (s : LatencyFleX) (f ts : ℕ) (hs : s.frame_begin_ids (slot f) = f)
    (hne : s.prev_frame_end_id ≠ U64MAX) (hgt : f > s.prev_frame_end_id) :
    (EndFrame s f ts).2.1 =
      cppClamp (Int.tdiv ((ts : ℤ) - (s.prev_frame_end_ts : ℤ))
          ((f : ℤ) - (s.prev_frame_end_id : ℤ))) 1000000 50000000 := by
  rw [EndFrame]
  dsimp only
  rw [if_pos hs]
  simp only [apply_ite LatencyFleX.prev_frame_end_id, apply_ite LatencyFleX.prev_frame_end_ts,
    ite_self]
  rw [if_pos (⟨hne, hgt⟩ : ¬s.prev_frame_end_id = U64MAX ∧ f > s.prev_frame_end_id)]

lemma endFrame_ft_neg (s : LatencyFleX) (f ts : ℕ) (hs : s.frame_begin_ids (slot f) = f)
    (hor : s.prev_frame_end_id = U64MAX ∨ ¬f > s.prev_frame_end_id) :
    (EndFrame s f ts).2.1 = -1 := by
  have hnot : ¬(¬s.prev_frame_end_id = U64MAX ∧ f > s.prev_frame_end_id) := by
    rcases hor with h | h
    · exact fun hc => hc.1 h
    · exact fun hc => h hc.2
  rw [EndFrame]
  dsimp only
  rw [if_pos hs]
  simp only [apply_ite LatencyFleX.prev_frame_end_id, apply_ite LatencyFleX.prev_frame_end_ts,
    ite_self]
  rw [if_neg hnot]

lemma endFrame_prev_ts (s : LatencyFleX) (f ts : ℕ)
    (hs : s.frame_begin_ids (slot f) = f) :
    (EndFrame s f ts).2.2.prev_frame_end_ts = ts := by
  rw [EndFrame]
  dsimp only
  rw [if_pos hs]
  (repeat' split) <;> rfl

/-- C1 (amended): for every state in which at least one frame has already
ended, GetWaitTarget returns the formula the source computes: gain from
cycle_ = {1.08, 0.96}, no down-factor division, and the truncated
fmax(proj_correction, 0) compensation (waitTargetAmended). The original
claim's formula with up_factor = 1.10 and down_factor = 0.985 is refuted by
the counterexample. -/
theorem C1_wait_target_formula (s : LatencyFleX) (f : ℕ)
    (h : s.prev_frame_end_id ≠ U64MAX) :
    (GetWaitTarget s f).1 = waitTargetAmended s f := by
  rw [GetWaitTarget, if_pos h, getWaitTargetActive, waitTargetAmended]
  dsimp only
  by_cases hb : s.frame_end_projection_base = U64MAX
  · simp only [if_pos hb]
    rfl
  · simp only [if_neg hb]
    rfl

/-- C1 counterexample: on a reachable warm state with inv_throughput and
latency estimates of 5 ms, the source returns 9629630 for frame 4 while the
formula claimed in C1 (projection base from prev_end_ts on this first warm
call, comp = round of the correction estimate, up_factor 1.10, division by
down_factor 0.985) gives 9614675. -/
theorem C1_wait_target_formula_cex :
    (GetWaitTarget (runOps LatencyFleX.init
        [.beginFrame 1 0, .endFrame 1 5000000, .beginFrame 2 5000000, .endFrame 2 10000000,
          .beginFrame 3 10000000]) 4).1 = 9629630 ∧
    waitTargetSpec (runOps LatencyFleX.init
        [.beginFrame 1 0, .endFrame 1 5000000, .beginFrame 2 5000000, .endFrame 2 10000000,
          .beginFrame 3 10000000]) 4
      (runOps LatencyFleX.init
          [.beginFrame 1 0, .endFrame 1 5000000, .beginFrame 2 5000000, .endFrame 2 10000000,
            .beginFrame 3 10000000]).proj_correction = 9614675 ∧
    (9629630 : ℤ) ≠ 9614675 :=
  ⟨by with_unfolding_all rfl, by with_unfolding_all rfl, by decide⟩

theorem C1_wait_target_formula_witness :
    (runOps LatencyFleX.init [.beginFrame 1 0, .endFrame 1 5000000]).prev_frame_end_id ≠
        U64MAX ∧
      (GetWaitTarget (runOps LatencyFleX.init [.beginFrame 1 0, .endFrame 1 5000000]) 2).1 =
        waitTargetAmended (runOps LatencyFleX.init [.beginFrame 1 0, .endFrame 1 5000000]) 2 :=
  ⟨by decide, C1_wait_target_formula (runOps LatencyFleX.init
      [.beginFrame 1 0, .endFrame 1 5000000]) 2 (by decide)⟩

/-- C2 (amended): on every GetWaitTarget call after the projection base has
been initialized, the correction estimator is updated with the unclamped
difference correction - prev_correction, where correction is the prediction
error of the previously ended frame, and prev_correction is then set to
correction. The original claim's clamped update with per-slot compensation
is refuted by the counterexample. -/
theorem C2_correction_update (s : LatencyFleX) (f : ℕ)
    (h : s.prev_frame_end_id ≠ U64MAX) (hb : s.frame_end_projection_base ≠ U64MAX) :
    (GetWaitTarget s f).2.proj_correction =
      s.proj_correction.update
        ((((s.prev_frame_end_ts : ℤ) -
              ((s.frame_end_projection_base : ℤ) +
                s.frame_end_projected_ts (slot s.prev_frame_end_id))) -
            s.prev_correction : ℤ) : ℚ) ∧
    (GetWaitTarget s f).2.prev_correction =
      (s.prev_frame_end_ts : ℤ) -
        ((s.frame_end_projection_base : ℤ) +
          s.frame_end_projected_ts (slot s.prev_frame_end_id)) := by
  rw [GetWaitTarget, if_pos h, getWaitTargetActive]
  dsimp only
  rw [if_neg hb]
  exact ⟨rfl, rfl⟩

/-- C2 counterexample: on a reachable state whose prediction error is
-1000000 and whose stored prev_correction is -2000000, the source updates
proj_correction with +1000000; the clamped quantity claimed in C2,
max(0, err) - max(0, x), is nonpositive for every possible value x of its
second operand (whose ingredients, prev_prediction_error and the
comp_applied array, do not exist in this revision), so no reading of the
claim matches the update performed. -/
theorem C2_correction_update_cex :
    ((runOps LatencyFleX.init
          [.beginFrame 1 0, .endFrame 1 5000000, .getWaitTarget 2, .beginFrame 2 5000000,
            .endFrame 2 3000000, .getWaitTarget 3, .beginFrame 3 3000000,
            .endFrame 3 5041667]).prev_frame_end_ts : ℤ) -
        (((runOps LatencyFleX.init
              [.beginFrame 1 0, .endFrame 1 5000000, .getWaitTarget 2, .beginFrame 2 5000000,
                .endFrame 2 3000000, .getWaitTarget 3, .beginFrame 3 3000000,
                .endFrame 3 5041667]).frame_end_projection_base : ℤ) +
          (runOps LatencyFleX.init
              [.beginFrame 1 0, .endFrame 1 5000000, .getWaitTarget 2, .beginFrame 2 5000000,
                .endFrame 2 3000000, .getWaitTarget 3, .beginFrame 3 3000000,
                .endFrame 3 5041667]).frame_end_projected_ts
            (slot (runOps LatencyFleX.init
                [.beginFrame 1 0, .endFrame 1 5000000, .getWaitTarget 2, .beginFrame 2 5000000,
                  .endFrame 2 3000000, .getWaitTarget 3, .beginFrame 3 3000000,
                  .endFrame 3 5041667]).prev_frame_end_id)) = -1000000 ∧
    (GetWaitTarget (runOps LatencyFleX.init
          [.beginFrame 1 0, .endFrame 1 5000000, .getWaitTarget 2, .beginFrame 2 5000000,
            .endFrame 2 3000000, .getWaitTarget 3, .beginFrame 3 3000000,
            .endFrame 3 5041667]) 4).2.proj_correction =
      (runOps LatencyFleX.init
          [.beginFrame 1 0, .endFrame 1 5000000, .getWaitTarget 2, .beginFrame 2 5000000,
            .endFrame 2 3000000, .getWaitTarget 3, .beginFrame 3 3000000,
            .endFrame 3 5041667]).proj_correction.update 1000000 ∧
    ∀ z : ℤ,
      (GetWaitTarget (runOps LatencyFleX.init
            [.beginFrame 1 0, .endFrame 1 5000000, .getWaitTarget 2, .beginFrame 2 5000000,
              .endFrame 2 3000000, .getWaitTarget 3, .beginFrame 3 3000000,
              .endFrame 3 5041667]) 4).2.proj_correction ≠
        (runOps LatencyFleX.init
            [.beginFrame 1 0, .endFrame 1 5000000, .getWaitTarget 2, .beginFrame 2 5000000,
              .endFrame 2 3000000, .getWaitTarget 3, .beginFrame 3 3000000,
              .endFrame 3 5041667]).proj_correction.update
          ((max 0 (-1000000 : ℤ) - max 0 z : ℤ) : ℚ) := by
  refine ⟨by with_unfolding_all rfl, by with_unfolding_all rfl, ?_⟩
  intro z heq
  have hS : (runOps LatencyFleX.init
      [.beginFrame 1 0, .endFrame 1 5000000, .getWaitTarget 2, .beginFrame 2 5000000,
        .endFrame 2 3000000, .getWaitTarget 3, .beginFrame 3 3000000,
        .endFrame 3 5041667]).proj_correction = ⟨1/2, -1000000, 1⟩ := by
    with_unfolding_all rfl
  have hG : (GetWaitTarget (runOps LatencyFleX.init
      [.beginFrame 1 0, .endFrame 1 5000000, .getWaitTarget 2, .beginFrame 2 5000000,
        .endFrame 2 3000000, .getWaitTarget 3, .beginFrame 3 3000000,
        .endFrame 3 5041667]) 4).2.proj_correction = ⟨1/2, 0, 1⟩ := by
    with_unfolding_all rfl
  rw [hG, hS] at heq
  have hc := congrArg EwmaEstimator.current heq
  simp only [EwmaEstimator.update] at hc
  have h3 : (max 0 (-1000000 : ℤ) - max 0 z) ≤ 0 := by
    have h1 := le_max_left (0 : ℤ) z
    have h2 : max (0 : ℤ) (-1000000) = 0 := by decide
    omega
  have hmz : ((max 0 (-1000000 : ℤ) - max 0 z : ℤ) : ℚ) ≤ 0 := by exact_mod_cast h3
  nlinarith [hc, hmz]

theorem C2_correction_update_witness :
    (runOps LatencyFleX.init
        [.beginFrame 1 0, .endFrame 1 5000000, .getWaitTarget 2]).prev_frame_end_id ≠
        U64MAX ∧
    (runOps LatencyFleX.init
        [.beginFrame 1 0, .endFrame 1 5000000, .getWaitTarget 2]).frame_end_projection_base ≠
        U64MAX ∧
    (GetWaitTarget (runOps LatencyFleX.init
          [.beginFrame 1 0, .endFrame 1 5000000, .getWaitTarget 2]) 3).2.prev_correction =
      ((runOps LatencyFleX.init
            [.beginFrame 1 0, .endFrame 1 5000000, .getWaitTarget 2]).prev_frame_end_ts : ℤ) -
        (((runOps LatencyFleX.init
              [.beginFrame 1 0, .endFrame 1 5000000,
                .getWaitTarget 2]).frame_end_projection_base : ℤ) +
          (runOps LatencyFleX.init
              [.beginFrame 1 0, .endFrame 1 5000000, .getWaitTarget 2]).frame_end_projected_ts
            (slot (runOps LatencyFleX.init
                [.beginFrame 1 0, .endFrame 1 5000000, .getWaitTarget 2]).prev_frame_end_id)) :=
  ⟨by decide, by decide,
    (C2_correction_update (runOps LatencyFleX.init
        [.beginFrame 1 0, .endFrame 1 5000000, .getWaitTarget 2]) 3
      (by decide) (by decide)).2⟩



/-- C3 (amended): BeginFrame takes only the frame id and the timestamp; it
records the begin id, the begin timestamp and prev_begin_id and changes
nothing else. There is no wait-target argument and no oversleep
compensation; the claimed forced-correction writes are refuted by the
counterexample. -/
theorem C3_begin_frame_effect (s : LatencyFleX) (f ts : ℕ) :
    BeginFrame s f ts =
      { s with
        frame_begin_ids := Function.update s.frame_begin_ids (slot f) f
        frame_begin_ts := Function.update s.frame_begin_ts (slot f) ts
        prev_frame_begin_id := f } := rfl

/-- C3 counterexample: a frame begun at time 150 after a wait target of 100
would, per the claim, add forced = 150 - 100 = 50 to the projected end
timestamp of its slot; BeginFrame leaves the projection untouched. -/
theorem C3_begin_frame_effect_cex :
    (BeginFrame LatencyFleX.init 3 150).frame_end_projected_ts (slot 3) =
        LatencyFleX.init.frame_end_projected_ts (slot 3) ∧
      LatencyFleX.init.frame_end_projected_ts (slot 3) + ((150 : ℤ) - 100) ≠
        LatencyFleX.init.frame_end_projected_ts (slot 3) :=
  ⟨rfl, by decide⟩

/-- C4 (amended): when the slot check passes, EndFrame applies no FPS floor:
the raw timestamp becomes the new prev_frame_end_ts, and the inter-frame
value reported (and fed into inv_throughput_est on an up-phase frame) is
the clamp of the raw span divided by the elapsed frame ids, an expression
independent of target_frame_time (which the source marks unimplemented and
never reads); its only lower bound is the 1 ms clamp, not
target_frame_time. The original floored-timestamp claim is refuted by the
counterexample. -/
theorem C4_fps_floor (s : LatencyFleX) (f ts : ℕ)
    (hslot : s.frame_begin_ids (slot f) = f) :
    (EndFrame s f ts).2.2.prev_frame_end_ts = ts ∧
    (s.prev_frame_end_id ≠ U64MAX → f > s.prev_frame_end_id →
      (EndFrame s f ts).2.1 =
        cppClamp (Int.tdiv ((ts : ℤ) - (s.prev_frame_end_ts : ℤ))
            ((f : ℤ) - (s.prev_frame_end_id : ℤ))) 1000000 50000000) ∧
    ((EndFrame s f ts).2.1 = -1 ∨ 1000000 ≤ (EndFrame s f ts).2.1) := by
  refine ⟨endFrame_prev_ts s f ts hslot,
    fun hne hgt => endFrame_ft_val s f ts hslot hne hgt, ?_⟩
  rw [EndFrame]
  dsimp only
  rw [if_pos hslot]
  (repeat' split) <;> first | (exact Or.inl rfl) | (exact Or.inr (le_max_left _ _))

/-- C4 counterexample: with target_frame_time set to 10 ms, frame 2 ended at
time 0 and frames 3 and 4 begun, ending frame 4 at 4 ms stores the raw
timestamp 4 ms as prev_frame_end_ts (the floored value would be 10 ms) and
feeds clamp((4 ms - 0)/2) = 2 ms into inv_throughput_est, less than the
claimed floor target_frame_time = 10 ms. -/
theorem C4_fps_floor_cex :
    (runOps LatencyFleX.init
        [.setTargetFrameTime 10000000, .beginFrame 2 0, .endFrame 2 0, .beginFrame 3 0,
          .beginFrame 4 0]).target_frame_time = 10000000 ∧
    (EndFrame (runOps LatencyFleX.init
          [.setTargetFrameTime 10000000, .beginFrame 2 0, .endFrame 2 0, .beginFrame 3 0,
            .beginFrame 4 0]) 4 4000000).2.2.prev_frame_end_ts = 4000000 ∧
    max 4000000
        ((runOps LatencyFleX.init
            [.setTargetFrameTime 10000000, .beginFrame 2 0, .endFrame 2 0, .beginFrame 3 0,
              .beginFrame 4 0]).prev_frame_end_ts +
          (runOps LatencyFleX.init
              [.setTargetFrameTime 10000000, .beginFrame 2 0, .endFrame 2 0, .beginFrame 3 0,
                .beginFrame 4 0]).target_frame_time) = 10000000 ∧
    (4000000 : ℕ) ≠ 10000000 ∧
    (EndFrame (runOps LatencyFleX.init
          [.setTargetFrameTime 10000000, .beginFrame 2 0, .endFrame 2 0, .beginFrame 3 0,
            .beginFrame 4 0]) 4 4000000).2.1 = 2000000 ∧
    (EndFrame (runOps LatencyFleX.init
          [.setTargetFrameTime 10000000, .beginFrame 2 0, .endFrame 2 0, .beginFrame 3 0,
            .beginFrame 4 0]) 4 4000000).2.2.inv_throughtput =
      (runOps LatencyFleX.init
          [.setTargetFrameTime 10000000, .beginFrame 2 0, .endFrame 2 0, .beginFrame 3 0,
            .beginFrame 4 0]).inv_throughtput.update 2000000 ∧
    (2000000 : ℤ) < 10000000 :=
  ⟨by decide, by decide, by decide, by decide, by decide, by with_unfolding_all rfl, by decide⟩

theorem C4_fps_floor_witness :
    (runOps LatencyFleX.init
        [.setTargetFrameTime 2000000, .beginFrame 1 0, .endFrame 1 0,
          .beginFrame 2 0]).frame_begin_ids (slot 2) = 2 ∧
    (EndFrame (runOps LatencyFleX.init
          [.setTargetFrameTime 2000000, .beginFrame 1 0, .endFrame 1 0,
            .beginFrame 2 0]) 2 3000000).2.2.prev_frame_end_ts = 3000000 ∧
    (EndFrame (runOps LatencyFleX.init
          [.setTargetFrameTime 2000000, .beginFrame 1 0, .endFrame 1 0,
            .beginFrame 2 0]) 2 3000000).2.1 =
      cppClamp (Int.tdiv ((3000000 : ℤ) -
            ((runOps LatencyFleX.init
                [.setTargetFrameTime 2000000, .beginFrame 1 0, .endFrame 1 0,
                  .beginFrame 2 0]).prev_frame_end_ts : ℤ))
          ((2 : ℤ) -
            ((runOps LatencyFleX.init
                [.setTargetFrameTime 2000000, .beginFrame 1 0, .endFrame 1 0,
                  .beginFrame 2 0]).prev_frame_end_id : ℤ))) 1000000 50000000 :=
  ⟨by decide,
    (C4_fps_floor (runOps LatencyFleX.init
        [.setTargetFrameTime 2000000, .beginFrame 1 0, .endFrame 1 0, .beginFrame 2 0])
      2 3000000 (by decide)).1,
    (C4_fps_floor (runOps LatencyFleX.init
        [.setTargetFrameTime 2000000, .beginFrame 1 0, .endFrame 1 0, .beginFrame 2 0])
      2 3000000 (by decide)).2.1 (by decide) (by decide)⟩

/-- C5: as long as no EndFrame has taken effect, the pacer stays cold:
prev_frame_end_id is still unset and GetWaitTarget returns 0 leaving the
state untouched; and as soon as one frame has ended, GetWaitTarget takes
the active (non-cold-start) branch. -/
theorem C5_cold_start (ops : List Op) (f : ℕ) (h : ∀ op ∈ ops, op.isEnd = false) :
    (runOps LatencyFleX.init ops).prev_frame_end_id = U64MAX ∧
      GetWaitTarget (runOps LatencyFleX.init ops) f = (0, runOps LatencyFleX.init ops) ∧
      ∀ (s : LatencyFleX) (g : ℕ), s.prev_frame_end_id ≠ U64MAX →
        GetWaitTarget s g = getWaitTargetActive s g := by
  have hcold := cold_runOps ops h LatencyFleX.init rfl
  refine ⟨hcold, ?_, fun s g hg => by rw [GetWaitTarget, if_pos hg]⟩
  rw [GetWaitTarget, if_neg (fun hne => hne hcold)]

theorem C5_cold_start_witness :
    (∀ op ∈ ([.beginFrame 1 0, .getWaitTarget 1, .reset] : List Op), op.isEnd = false) ∧
      ((runOps LatencyFleX.init [.beginFrame 1 0, .getWaitTarget 1, .reset]).prev_frame_end_id =
          U64MAX ∧
        GetWaitTarget (runOps LatencyFleX.init [.beginFrame 1 0, .getWaitTarget 1, .reset]) 7 =
          (0, runOps LatencyFleX.init [.beginFrame 1 0, .getWaitTarget 1, .reset]) ∧
        ∀ (s : LatencyFleX) (g : ℕ), s.prev_frame_end_id ≠ U64MAX →
          GetWaitTarget s g = getWaitTargetActive s g) :=
  ⟨by decide, C5_cold_start [.beginFrame 1 0, .getWaitTarget 1, .reset] 7 (by decide)⟩

/-- C7: an EndFrame whose slot check fails is a complete no-op on the state,
reporting both measurements as unavailable (the int64 value -1, read back
as UINT64_MAX, is written through both pointers); and an EndFrame for a
frame id in a different slot class never touches the begin records of slot
f, in particular the slot filled by BeginFrame f survives EndFrame g
whenever g and f are distinct modulo 16. -/
theorem C7_end_frame_noop (s : LatencyFleX) (g f ts : ℕ) :
    (s.frame_begin_ids (slot g) ≠ g → EndFrame s g ts = (-1, -1, s)) ∧
    (g % 16 ≠ f % 16 →
      (EndFrame s g ts).2.2.frame_begin_ids (slot f) = s.frame_begin_ids (slot f) ∧
      (EndFrame s g ts).2.2.frame_begin_ts (slot f) = s.frame_begin_ts (slot f)) ∧
    (∀ ts1 : ℕ, g % 16 ≠ f % 16 →
      (EndFrame (BeginFrame s f ts1) g ts).2.2.frame_begin_ids (slot f) = f) := by
  refine ⟨fun hne => endFrame_fail s g ts hne, fun hmod => ?_, fun ts1 hmod => ?_⟩
  · exact ⟨endFrame_ids_other s g ts f hmod, by rw [(endFrame_fields s g ts).2.1]⟩
  · exact (endFrame_ids_other _ g ts f hmod).trans (beginFrame_ids_self s f ts1)

theorem C7_end_frame_noop_witness :
    (LatencyFleX.init.frame_begin_ids (slot 2) ≠ 2 ∧
      EndFrame LatencyFleX.init 2 0 = (-1, -1, LatencyFleX.init)) ∧
    ((2 : ℕ) % 16 ≠ 1 % 16 ∧
      (EndFrame (BeginFrame LatencyFleX.init 1 0) 2 0).2.2.frame_begin_ids (slot 1) = 1) :=
  ⟨⟨by decide, (C7_end_frame_noop LatencyFleX.init 2 1 0).1 (by decide)⟩,
    ⟨by decide, (C7_end_frame_noop LatencyFleX.init 2 1 0).2.2 0 (by decide)⟩⟩



/-- C8: on the non-placebo path with the target in the future, the computed
wake-up deadline never exceeds now + 50 ms; a clamped sleep increments the
consecutive-failsafe counter and schedules a recalibration once the counter
exceeds 5, and a non-clamped sleep resets the counter to 0 and keeps the
wake-up at the target. -/
theorem C8_failsafe_clamp (st : FailsafeState) (now target : ℕ) (h : target > now) :
    (failsafeClamp st now target).1 ≤ now + 50000000 ∧
    (target > now + 50000000 →
      (failsafeClamp st now target).1 = now + 50000000 ∧
      (failsafeClamp st now target).2.failsafe_triggered = st.failsafe_triggered + 1 ∧
      (st.failsafe_triggered + 1 > 5 →
        (failsafeClamp st now target).2.ticker_needs_reset = true) ∧
      (¬st.failsafe_triggered + 1 > 5 →
        (failsafeClamp st now target).2.ticker_needs_reset = st.ticker_needs_reset)) ∧
    (target ≤ now + 50000000 →
      (failsafeClamp st now target).1 = target ∧
      (failsafeClamp st now target).2.failsafe_triggered = 0 ∧
      (failsafeClamp st now target).2.ticker_needs_reset = st.ticker_needs_reset) := by
  rw [failsafeClamp]
  dsimp only
  split_ifs with hc h5
  · exact ⟨le_refl _, fun _ => ⟨rfl, rfl, fun _ => rfl, fun hn => absurd h5 hn⟩,
      fun hle => absurd hle (by omega)⟩
  · exact ⟨le_refl _, fun _ => ⟨rfl, rfl, fun hgt => absurd hgt h5, fun _ => rfl⟩,
      fun hle => absurd hle (by omega)⟩
  · exact ⟨by omega, fun hgt => absurd hgt hc, fun _ => ⟨rfl, rfl, rfl⟩⟩

theorem C8_failsafe_clamp_witness :
    (100 : ℕ) > 10 ∧
      ((failsafeClamp ⟨0, false⟩ 10 100).1 ≤ 10 + 50000000 ∧
        (100 > 10 + 50000000 →
          (failsafeClamp ⟨0, false⟩ 10 100).1 = 10 + 50000000 ∧
          (failsafeClamp ⟨0, false⟩ 10 100).2.failsafe_triggered = 0 + 1 ∧
          (0 + 1 > 5 → (failsafeClamp ⟨0, false⟩ 10 100).2.ticker_needs_reset = true) ∧
          (¬0 + 1 > 5 →
            (failsafeClamp ⟨0, false⟩ 10 100).2.ticker_needs_reset = false)) ∧
        (100 ≤ 10 + 50000000 →
          (failsafeClamp ⟨0, false⟩ 10 100).1 = 100 ∧
          (failsafeClamp ⟨0, false⟩ 10 100).2.failsafe_triggered = 0 ∧
          (failsafeClamp ⟨0, false⟩ 10 100).2.ticker_needs_reset = false)) :=
  ⟨by decide, C8_failsafe_clamp ⟨0, false⟩ 10 100 (by decide)⟩

lemma beginFrame_prev_begin (s : LatencyFleX) (f ts : ℕ) :
    (BeginFrame s f ts).prev_frame_begin_id = f := rfl

/-- C9 (amended): an EndFrame call never decreases prev_frame_end_id when its
frame id is at least the current prev_frame_end_id (the order in which the
FIFO completion waiter delivers ends); and prev_frame_begin_id always equals
the most recent BeginFrame argument: BeginFrame sets it and no other
operation changes it. The original claim, non-decrease across every call
sequence, fails for an out-of-order EndFrame, see the counterexample. -/
theorem C9_monotone_counters :
    (∀ (s : LatencyFleX) (fid ts : ℕ), s.prev_frame_end_id ≠ U64MAX →
        s.prev_frame_end_id ≤ fid →
        s.prev_frame_end_id ≤ (EndFrame s fid ts).2.2.prev_frame_end_id) ∧
    (∀ (s : LatencyFleX) (f ts : ℕ), (BeginFrame s f ts).prev_frame_begin_id = f) ∧
    (∀ (s : LatencyFleX) (f ts : ℕ),
        (EndFrame s f ts).2.2.prev_frame_begin_id = s.prev_frame_begin_id) ∧
    (∀ (s : LatencyFleX) (f : ℕ),
        (GetWaitTarget s f).2.prev_frame_begin_id = s.prev_frame_begin_id) := by
  refine ⟨fun s fid ts _ hle => ?_, fun s f ts => beginFrame_prev_begin s f ts,
    fun s f ts => (endFrame_fields s f ts).1, fun s f => getWaitTarget_prev_begin s f⟩
  rcases endFrame_prev_end s fid ts with h | h <;> omega

/-- C9 counterexample: ending frame 2 and then frame 1 (both slots filled)
moves prev_frame_end_id from 2 down to 1, so prev_frame_end_id is not
non-decreasing across every sequence of pacer operations. -/
theorem C9_monotone_counters_cex :
    (runOps LatencyFleX.init
        [.beginFrame 1 0, .beginFrame 2 0, .endFrame 2 0]).prev_frame_end_id = 2 ∧
    (runOps LatencyFleX.init
        [.beginFrame 1 0, .beginFrame 2 0, .endFrame 2 0,
          .endFrame 1 0]).prev_frame_end_id = 1 ∧
    (1 : ℕ) < 2 :=
  ⟨by decide, by decide, by decide⟩

theorem C9_monotone_counters_witness :
    (runOps LatencyFleX.init [.beginFrame 1 0, .endFrame 1 0]).prev_frame_end_id ≠ U64MAX ∧
    (runOps LatencyFleX.init [.beginFrame 1 0, .endFrame 1 0]).prev_frame_end_id ≤ 3 ∧
    (runOps LatencyFleX.init [.beginFrame 1 0, .endFrame 1 0]).prev_frame_end_id ≤
      (EndFrame (runOps LatencyFleX.init [.beginFrame 1 0, .endFrame 1 0]) 3
          0).2.2.prev_frame_end_id :=
  ⟨by decide, by decide,
    C9_monotone_counters.1 (runOps LatencyFleX.init [.beginFrame 1 0, .endFrame 1 0]) 3 0
      (by decide) (by decide)⟩

/-- C10: for every EndFrame call, the value written through the latency
pointer is either -1 (UINT64_MAX as uint64, exactly when the slot check
fails) or the clamped latency in [1000000 ns, 50000000 ns], and the value
written through the frame_time pointer is either -1 (exactly when the slot
check fails, no frame has ended before, or frame_id is not beyond
prev_frame_end_id) or the clamped inter-frame time in
[1000000 ns, 50000000 ns]: the reported values are the clamped values, not
the raw timestamp differences. -/
theorem C10_end_frame_outputs (s : LatencyFleX) (f ts : ℕ) :
    ((EndFrame s f ts).1 = -1 ∨
      (1000000 ≤ (EndFrame s f ts).1 ∧ (EndFrame s f ts).1 ≤ 50000000)) ∧
    ((EndFrame s f ts).2.1 = -1 ∨
      (1000000 ≤ (EndFrame s f ts).2.1 ∧ (EndFrame s f ts).2.1 ≤ 50000000)) ∧
    ((EndFrame s f ts).1 = -1 ↔ s.frame_begin_ids (slot f) ≠ f) ∧
    ((EndFrame s f ts).2.1 = -1 ↔
      (s.frame_begin_ids (slot f) ≠ f ∨ s.prev_frame_end_id = U64MAX ∨
        ¬f > s.prev_frame_end_id)) := by
  by_cases hs : s.frame_begin_ids (slot f) = f
  case neg =>
    rw [endFrame_fail s f ts hs]
    exact ⟨Or.inl rfl, Or.inl rfl, ⟨fun _ => hs, fun _ => rfl⟩,
      ⟨fun _ => Or.inl hs, fun _ => rfl⟩⟩
  case pos =>
    have hlat : (1000000 : ℤ) ≤ (EndFrame s f ts).1 ∧ (EndFrame s f ts).1 ≤ 50000000 := by
      rw [endFrame_latency_val s f ts hs]
      exact ⟨le_max_left _ _, max_le (by norm_num) (min_le_left _ _)⟩
    refine ⟨Or.inr hlat, ?_, ?_, ?_⟩
    · by_cases hcond : s.prev_frame_end_id ≠ U64MAX ∧ f > s.prev_frame_end_id
      · right
        rw [endFrame_ft_val s f ts hs hcond.1 hcond.2]
        exact ⟨le_max_left _ _, max_le (by norm_num) (min_le_left _ _)⟩
      · left
        apply endFrame_ft_neg s f ts hs
        by_cases hu : s.prev_frame_end_id = U64MAX
        · exact Or.inl hu
        · exact Or.inr fun hgt => hcond ⟨hu, hgt⟩
    · constructor
      · intro hm1
        rw [hm1] at hlat
        exact absurd hlat.1 (by decide)
      · intro hne
        exact absurd hs hne
    · constructor
      · intro hm1
        by_contra hcon
        push_neg at hcon
        obtain ⟨_, hc2, hc3⟩ := hcon
        have hft := endFrame_ft_val s f ts hs hc2 hc3
        rw [hm1] at hft
        have hle : (1000000 : ℤ) ≤ -1 := hft ▸ le_max_left 1000000 _
        exact absurd hle (by decide)
      · intro hor
        rcases hor with h | h | h
        · exact absurd hs h
        · exact endFrame_ft_neg s f ts hs (Or.inl h)
        · exact endFrame_ft_neg s f ts hs (Or.inr h)


end lfx
